import Mathlib

/-!
Shallow embedding of the tg_summary_bot message ingestion/retrieval core
(src/models.py, src/database.py, src/vector_database.py, src/telegram_client.py,
src/bot.py), with theorems checking the natural-language specification.

Conventions:
* timestamps (`datetime` values) are modelled as `Int` (POSIX seconds for dates,
  exact rational seconds `Rat` where sub-second precision matters for cooldowns);
* strings are modelled as `List Char` where Python string algorithms
  (`str.replace`, regex matching) must be executed, and as `String` elsewhere;
* the MongoDB collection is modelled as a list of records in insertion order;
  the ChromaDB collection likewise;
* external backends (MongoDB `$text` search, the embedding model plus ChromaDB
  query endpoint) are parameters returning `Except String _`, since the code
  treats them as opaque fallible calls.
-/

namespace TgBot

/-- Model of `models.py` `TelegramMessage`: id, text, sender, date, chat_id,
optional chat_username. `date` is a POSIX timestamp in seconds. -/
structure TelegramMessage where
  id : Int
  text : String
  sender : String
  date : Int
  chat_id : Int
  chat_username : Option String
deriving Repr, DecidableEq

/-- Model of `models.py` `SearchResult`: query, messages, total_found (the optional
`summary` field is never set on the search path and is omitted). -/
structure SearchResult where
  query : String
  messages : List TelegramMessage
  total_found : Nat
deriving Repr, DecidableEq

/-! ### Case mapping

Python's `str.lower` / `str.upper` / `str.capitalize` and the regex
case-insensitive flag, restricted to the alphabets this program handles
(ASCII letters, Russian/Ukrainian Cyrillic). -/

/-- Lower-case a single character (ASCII A-Z, Cyrillic А-Я U+0410..U+042F,
Ukrainian І/Є/Ї/Ґ). Everything else is returned unchanged. -/
def lowerChar (c : Char) : Char :=
  let n := c.toNat
  if 0x41 ≤ n ∧ n ≤ 0x5A then Char.ofNat (n + 0x20)
  else if 0x410 ≤ n ∧ n ≤ 0x42F then Char.ofNat (n + 0x20)
  else if n = 0x406 then Char.ofNat 0x456
  else if n = 0x404 then Char.ofNat 0x454
  else if n = 0x407 then Char.ofNat 0x457
  else if n = 0x490 then Char.ofNat 0x491
  else c

/-- Upper-case a single character (inverse direction of `lowerChar`). -/
def upperChar (c : Char) : Char :=
  let n := c.toNat
  if 0x61 ≤ n ∧ n ≤ 0x7A then Char.ofNat (n - 0x20)
  else if 0x430 ≤ n ∧ n ≤ 0x44F then Char.ofNat (n - 0x20)
  else if n = 0x456 then Char.ofNat 0x406
  else if n = 0x454 then Char.ofNat 0x404
  else if n = 0x457 then Char.ofNat 0x407
  else if n = 0x491 then Char.ofNat 0x490
  else c

/-- Python `str.lower` over a character list. -/
def lowerStr (s : List Char) : List Char := s.map lowerChar

/-- Python `str.upper` over a character list. -/
def upperStr (s : List Char) : List Char := s.map upperChar

/-- Python `str.capitalize`: first character upper-cased, the rest
lower-cased. -/
def capitalizeStr (s : List Char) : List Char :=
  match s with
  | [] => []
  | c :: rest => upperChar c :: lowerStr rest

/-! ### A small regex engine

Model of the regex dialect actually exercised by `database.py`'s
`$regex` queries (`$options: "i"`): literal characters, character classes
`[...]` (in which `[` is a literal, the class ending at the first `]`, and a
`]` outside any class is a literal), `.` and postfix `*`.  Matching is
unanchored (MongoDB `$regex` matches anywhere in the field) and
case-insensitive via `lowerChar` folding of both pattern and subject. -/

/-- One regex atom: literal character, character class, or dot. -/
inductive RTok where
  | lit (c : Char)
  | cls (cs : List Char)
  | dot
deriving Repr, DecidableEq

/-- A regex piece: an atom, possibly under a postfix `*`. -/
structure RPiece where
  tok : RTok
  starred : Bool
deriving Repr, DecidableEq

/-- Does atom `t` match character `c`? -/
def rtokMatch (t : RTok) (c : Char) : Bool :=
  match t with
  | .lit l => c = l
  | .cls cs => cs.contains c
  | .dot => true

/-- All suffixes of `s` reachable by consuming zero or more consecutive
characters each matching atom `t` (the backtracking choices of `t*`). -/
def starConsume (t : RTok) : List Char → List (List Char)
  | [] => [[]]
  | c :: s' =>
    if rtokMatch t c then (c :: s') :: starConsume t s'
    else [c :: s']

/-- Match a piece list against a prefix of `s` (trailing characters of `s`
may be left unconsumed). -/
def matchPieces : List RPiece → List Char → Bool
  | [], _ => true
  | p :: rest, s =>
    if p.starred then
      (starConsume p.tok s).any (fun s' => matchPieces rest s')
    else
      match s with
      | [] => false
      | c :: s' => rtokMatch p.tok c && matchPieces rest s'

/-- Unanchored search: does the piece list match starting at some position
of `s`? -/
def searchPieces (ps : List RPiece) : List Char → Bool
  | [] => matchPieces ps []
  | c :: s' => matchPieces ps (c :: s') || searchPieces ps s'

/-- Split a character-class body: characters up to the first `]` (all of
them literal, `[` included), and the remainder after that `]`. -/
def classSplit : List Char → List Char × List Char
  | [] => ([], [])
  | c :: rest =>
    if c = ']' then ([], rest)
    else
      let r := classSplit rest
      (c :: r.1, r.2)

/-- Raw lexical token: an atom, or a `*` quantifier mark. -/
inductive RawTok where
  | atom (t : RTok)
  | starMark
deriving Repr, DecidableEq

/-- Tokenize a pattern: `[` opens a class closed by the first `]`
(characters inside, `[` included, are literals); a lone `]` is a literal;
`.` is the any-character atom; `*` is a quantifier mark.  The `fuel`
argument only bounds the recursion: every step consumes at least one input
character (`classSplit_snd_length`), so `fuel = s.length` never runs out. -/
def tokenizeF : Nat → List Char → List RawTok
  | 0, _ => []
  | _, [] => []
  | fuel + 1, '[' :: rest =>
    .atom (.cls (classSplit rest).1) :: tokenizeF fuel (classSplit rest).2
  | fuel + 1, '.' :: rest => .atom .dot :: tokenizeF fuel rest
  | fuel + 1, '*' :: rest => .starMark :: tokenizeF fuel rest
  | fuel + 1, c :: rest => .atom (.lit c) :: tokenizeF fuel rest

/-- Tokenize a whole pattern string. -/
def tokenize (s : List Char) : List RawTok := tokenizeF s.length s

/-- Attach each `*` mark to the preceding atom. -/
def groupPieces : List RawTok → List RPiece
  | [] => []
  | .atom t :: .starMark :: rest => ⟨t, true⟩ :: groupPieces rest
  | .atom t :: rest => ⟨t, false⟩ :: groupPieces rest
  | .starMark :: rest => groupPieces rest

/-- Parse a pattern string into pieces. -/
def parseRegex (s : List Char) : List RPiece :=
  groupPieces (tokenize s)

/-- MongoDB `{"$regex": pat, "$options": "i"}` applied to a stored text:
case-insensitive unanchored match of `pat` against `text`. -/
def pcreMatchI (pat text : List Char) : Bool :=
  searchPieces (parseRegex (lowerStr pat)) (lowerStr text)

/-! ### Descending sort by date

Model of Python's `list.sort(key=..., reverse=True)` / MongoDB
`.sort("date", -1)`: an insertion sort into descending key order. -/

section SortDesc

variable {α : Type} (key : α → Int)

/-- Insert `m` into a list kept in descending `key` order. -/
def insertDesc (m : α) : List α → List α
  | [] => [m]
  | x :: xs => if key x ≤ key m then m :: x :: xs else x :: insertDesc m xs

/-- Sort a list into descending `key` order. -/
def sortDescBy : List α → List α
  | [] => []
  | x :: xs => insertDesc key x (sortDescBy xs)

end SortDesc

/-! ### The MongoDB store (`database.py`) -/

/-- One document of the `messages` collection, as written by
`MessageDatabase.save_message`. -/
structure MongoRecord where
  message_id : Int
  chat_id : Int
  chat_username : Option String
  text : String
  sender : String
  date : Int
  created_at : Int
deriving Repr, DecidableEq

/-- The `messages` collection, in insertion order. -/
abbrev MongoStore := List MongoRecord

/-- Rebuild a `TelegramMessage` from a stored document (the conversion done
on every read path of `database.py`). -/
def MongoRecord.toMessage (r : MongoRecord) : TelegramMessage :=
  ⟨r.message_id, r.text, r.sender, r.date, r.chat_id, r.chat_username⟩

namespace MessageDatabase

/-- Model of `insert_one` under the unique index on `(chat_id, message_id)` created
by `setup_indexes`: raises a duplicate key error if a record with the same
key exists, otherwise appends the document. -/
def insert_one (s : MongoStore) (r : MongoRecord) : Except String MongoStore :=
  if s.any (fun q => q.chat_id == r.chat_id && q.message_id == r.message_id) then
    .error "E11000 duplicate key error"
  else
    .ok (s ++ [r])

/-- Model of `database.py` `save_message`: inserts the document; any exception is
caught (printed unless it is a duplicate-key error) and never re-raised.
`now` models `datetime.utcnow()` for the `created_at` field. -/
def save_message (s : MongoStore) (now : Int) (m : TelegramMessage) : MongoStore :=
  match insert_one s ⟨m.id, m.chat_id, m.chat_username, m.text, m.sender, m.date, now⟩ with
  | .ok s' => s'
  | .error _ => s

/-- Model of `database.py` `get_recent_messages`: find by `chat_id`, sort by date
descending, limit, then reverse into chronological (oldest-first) order. -/
def get_recent_messages (s : MongoStore) (chat_id : Int) (limit : Nat) :
    List TelegramMessage :=
  let docs := s.filter (fun r => r.chat_id == chat_id)
  let sorted := sortDescBy (fun r : MongoRecord => r.date) docs
  (((sorted.take limit)).map MongoRecord.toMessage).reverse

/-- The fixed OCR confusion table of `create_fuzzy_patterns`, in source
order (Python dicts preserve insertion order). -/
def substitutions : List (Char × List Char) :=
  [('з', "[зц]".data), ('ц', "[цз]".data), ('и', "[иі]".data),
   ('і', "[іи]".data), ('а', "[ао]".data), ('о', "[оа]".data),
   ('е', "[ее]".data), ('н', "[нп]".data), ('п', "[пн]".data),
   ('р', "[рp]".data), ('у', "[уy]".data)]

/-- Python `str.replace` for a single-character needle. -/
def replaceChar (s : List Char) (orig : Char) (rep : List Char) : List Char :=
  s.flatMap (fun c => if c = orig then rep else [c])

/-- The fuzzy pattern of `create_fuzzy_patterns`: lower-case the text, then
apply the confusion-table replacements sequentially over the whole string
(each `str.replace` also rewrites characters introduced by earlier ones). -/
def fuzzyText (text : List Char) : List Char :=
  substitutions.foldl (fun acc p => replaceChar acc p.1 p.2) (lowerStr text)

/-- Model of `create_fuzzy_patterns`: original, lower, upper, capitalized, then the
fuzzy pattern, and for texts longer than 4 characters the `.*core.*`
pattern built from the text with first and last character stripped. -/
def create_fuzzy_patterns (text : List Char) : List (List Char) :=
  let patterns := [text, lowerStr text, upperStr text, capitalizeStr text,
    fuzzyText text]
  if text.length > 4 then
    patterns ++ [('.' :: '*' :: lowerStr ((text.drop 1).dropLast)) ++ ['.', '*']]
  else
    patterns

/-- The duplicate-removal loop of `search_messages_regex`: keep the first
occurrence of each pattern, preserving order. -/
def dedupPreservingOrder (l : List (List Char)) : List (List Char) :=
  l.foldl (fun acc p => if p ∈ acc then acc else acc ++ [p]) []

/-- One collection query of the pattern loop: find documents of the chat
whose text matches the pattern (case-insensitive regex `rmatch`), newest
first, limited. -/
def regexFind (rmatch : List Char → List Char → Bool) (s : MongoStore)
    (chat_id : Int) (pat : List Char) (limit : Nat) : List TelegramMessage :=
  let docs := s.filter (fun r => r.chat_id == chat_id && rmatch pat r.text.data)
  ((sortDescBy (fun r : MongoRecord => r.date) docs).take limit).map
    MongoRecord.toMessage

/-- The `for pattern in unique_patterns` loop: query each pattern in order
and stop at the first one returning any documents. -/
def tryPatterns (rmatch : List Char → List Char → Bool) (s : MongoStore)
    (chat_id : Int) (limit : Nat) : List (List Char) → List TelegramMessage
  | [] => []
  | p :: rest =>
    let pattern_messages := regexFind rmatch s chat_id p limit
    if pattern_messages.isEmpty then tryPatterns rmatch s chat_id limit rest
    else pattern_messages

/-- Model of `database.py` `search_messages_regex`: build the candidate patterns,
deduplicate them preserving order, and try them in order until one yields
results. -/
def search_messages_regex (rmatch : List Char → List Char → Bool)
    (s : MongoStore) (chat_id : Int) (query : String) (limit : Nat) :
    List TelegramMessage :=
  let search_patterns := create_fuzzy_patterns query.data
  let unique_patterns := dedupPreservingOrder search_patterns
  tryPatterns rmatch s chat_id limit unique_patterns

/-- Model of `database.py` `search_messages`: run the MongoDB `$text` search (an
external, fallible backend — no `try`/`except` around it, so a backend
error propagates to the caller); if it succeeds with no results, fall back
to `search_messages_regex`. -/
def search_messages
    (textSearch : MongoStore → Int → String → Nat → Except String (List TelegramMessage))
    (rmatch : List Char → List Char → Bool) (s : MongoStore) (chat_id : Int)
    (query : String) (limit : Nat) : Except String (List TelegramMessage) :=
  match textSearch s chat_id query limit with
  | .error e => .error e
  | .ok messages =>
    if messages.isEmpty then
      .ok (search_messages_regex rmatch s chat_id query limit)
    else
      .ok messages

end MessageDatabase

/-- Model of `telegram_client.py` `TelegramSearchClient.search_messages`: resolve the
limit (`limit or config.max_messages_to_fetch`, where Python treats `0` and
`None` as falsy), run the store search, retry the regex fallback if the
result is empty, and wrap into a `SearchResult` with
`total_found = len(messages)`. -/
def TelegramSearchClient.search_messages
    (textSearch : MongoStore → Int → String → Nat → Except String (List TelegramMessage))
    (rmatch : List Char → List Char → Bool) (max_messages_to_fetch : Nat)
    (s : MongoStore) (chat_id : Int) (query : String) (limit? : Option Nat) :
    Except String SearchResult :=
  let limit := match limit? with
    | some l => if l = 0 then max_messages_to_fetch else l
    | none => max_messages_to_fetch
  match MessageDatabase.search_messages textSearch rmatch s chat_id query limit with
  | .error e => .error e
  | .ok messages =>
    let messages :=
      if messages.isEmpty then
        MessageDatabase.search_messages_regex rmatch s chat_id query limit
      else messages
    .ok ⟨query, messages, messages.length⟩

/-! ### The vector store (`vector_database.py`) -/

/-- One ChromaDB document with the metadata written by `_create_metadata`:
id `f"{chat_id}_{message_id}"`, the text, and the metadata fields.  `date`
is the numeric `date_timestamp`; `chat_username` is stored as `""` when the
message has none. -/
structure VectorRecord where
  doc_id : String
  text : String
  message_id : Int
  chat_id : Int
  chat_username : String
  sender : String
  date : Int
  created_at : Int
deriving Repr, DecidableEq

/-- The `telegram_messages` collection. -/
abbrev VectorStore := List VectorRecord

/-- The conversion done on every read path of `vector_database.py`:
`chat_username` becomes `None` when the stored string is empty. -/
def VectorRecord.toMessage (r : VectorRecord) : TelegramMessage :=
  ⟨r.message_id, r.text, r.sender, r.date, r.chat_id,
   if r.chat_username = "" then none else some r.chat_username⟩

/-- Python's `not text.strip()`: true iff the text is empty after trimming,
i.e. iff every character is whitespace. -/
def stripEmpty (s : String) : Bool := s.data.all Char.isWhitespace

namespace VectorDatabase

/-- Model of `_create_document_id`: the chat id and message id joined by an underscore. -/
def createDocumentId (m : TelegramMessage) : String :=
  toString m.chat_id ++ "_" ++ toString m.id

/-- Model of `vector_database.py` `save_message`: skip when the trimmed text is
empty; skip when a document with the same id already exists; otherwise
embed and add the document.  All exceptions are caught, so the call never
raises. -/
def save_message (s : VectorStore) (now : Int) (m : TelegramMessage) : VectorStore :=
  if stripEmpty m.text then s
  else
    let doc_id := createDocumentId m
    if s.any (fun r => r.doc_id == doc_id) then s
    else
      s ++ [⟨doc_id, m.text, m.id, m.chat_id, m.chat_username.getD "",
             m.sender, m.date, now⟩]

/-- Model of `vector_database.py` `search_messages`: the embedding call and the
collection query (an external fallible backend taking the chat filter, the
query text and `min(limit, vector_search_limit)`) run inside a
`try`/`except` that converts any failure into an empty list. -/
def search_messages
    (backend : Int → String → Nat → Except String (List VectorRecord))
    (vector_search_limit : Nat) (chat_id : Int) (query : String)
    (limit : Nat) : List TelegramMessage :=
  match backend chat_id query (min limit vector_search_limit) with
  | .error _ => []
  | .ok recs => recs.map VectorRecord.toMessage

/-- Model of `vector_database.py` `get_recent_messages` (the non-raising path of the
`try` body): fetch the chat's documents of the last `days_back` days, sort
newest-first; if fewer than `limit`, refetch all of the chat's documents
instead; truncate to `limit` and return oldest-first. -/
def get_recent_messages (s : VectorStore) (now : Int) (chat_id : Int)
    (limit : Nat) (days_back : Int) : List TelegramMessage :=
  let timestamp_threshold := now - days_back * 86400
  let windowDocs := s.filter
    (fun r => r.chat_id == chat_id && timestamp_threshold ≤ r.date)
  let messages := sortDescBy (fun m : TelegramMessage => m.date)
    (windowDocs.map VectorRecord.toMessage)
  if messages.length < limit then
    let allDocs := s.filter (fun r => r.chat_id == chat_id)
    let all_messages := sortDescBy (fun m : TelegramMessage => m.date)
      (allDocs.map VectorRecord.toMessage)
    (all_messages.take limit).reverse
  else
    (messages.take limit).reverse

end VectorDatabase

/-! ### The bot layer (`bot.py`) -/

/-- Outcome of the rate-limiting head of `cmd_ask` / `cmd_summary`. -/
inductive RateDecision where
  | allowed
  | rejected (remaining_seconds : Rat)
deriving Repr, DecidableEq

/-- A cooldown dict `chat_id -> last invocation time` (seconds, exact
rationals to model `datetime` microsecond precision). -/
abbrev Cooldowns := List (Int × Rat)

/-- Python `chat_id in cooldowns` / `cooldowns[chat_id]`. -/
def lookupCooldown (cds : Cooldowns) (chat_id : Int) : Option Rat :=
  (cds.find? (fun p => p.1 == chat_id)).map Prod.snd

/-- Python `cooldowns[chat_id] = current_time`. -/
def setCooldown (cds : Cooldowns) (chat_id : Int) (t : Rat) : Cooldowns :=
  if cds.any (fun p => p.1 == chat_id) then
    cds.map (fun p => if p.1 == chat_id then (chat_id, t) else p)
  else
    cds ++ [(chat_id, t)]

/-- The rate-limiting head shared by `cmd_ask` (window 10 s) and
`cmd_summary` (window 300 s): if the chat has a recorded last invocation
and `window - (current_time - last)` is still positive, reject with that
remaining time and leave the dict unchanged; otherwise allow and record
`current_time`. -/
def checkCooldown (window : Rat) (cds : Cooldowns) (chat_id : Int)
    (current_time : Rat) : RateDecision × Cooldowns :=
  match lookupCooldown cds chat_id with
  | some last_time =>
    let cooldown_remaining := window - (current_time - last_time)
    if 0 < cooldown_remaining then (.rejected cooldown_remaining, cds)
    else (.allowed, setCooldown cds chat_id current_time)
  | none => (.allowed, setCooldown cds chat_id current_time)

/-- Window of `cmd_ask`'s cooldown: `timedelta(seconds=10)`. -/
def askCooldownWindow : Rat := 10

/-- Window of `cmd_summary`'s cooldown: `timedelta(minutes=5)`. -/
def summaryCooldownWindow : Rat := 300

/-- The fields of an incoming aiogram photo/text event used by
`store_message` and `ocr_worker`. -/
structure IncomingEvent where
  message_id : Int
  chat_id : Int
  chat_type : String
  chat_username : Option String
  from_username : Option String
  from_first_name : Option String
  date : Int
deriving Repr, DecidableEq

/-- Python `x or y` for an optional string (`None` and `""` are falsy). -/
def orElseStr (x : Option String) (y : String) : String :=
  match x with
  | some s => if s = "" then y else s
  | none => y

/-- Model of `message.from_user.username or message.from_user.first_name or
"Unknown"`. -/
def senderName (e : IncomingEvent) : String :=
  orElseStr e.from_username (orElseStr e.from_first_name "Unknown")

/-- The `chat_username` passed to the stored message: the chat's username only
for group/supergroup/channel chats, else `None`. -/
def chatUsernameFor (e : IncomingEvent) : Option String :=
  if e.chat_type = "group" ∨ e.chat_type = "supergroup" ∨ e.chat_type = "channel"
  then e.chat_username else none

/-- The caption record built by `store_message` for a photo with a caption
(bot.py lines 417-430). -/
def captionMessage (e : IncomingEvent) (caption : String) : TelegramMessage :=
  ⟨e.message_id, "[Image Caption] " ++ caption, senderName e, e.date,
   e.chat_id, chatUsernameFor e⟩

/-- The OCR record built by `ocr_worker` for the same photo event
(bot.py lines 344-359). -/
def ocrMessage (e : IncomingEvent) (extracted_text : String) : TelegramMessage :=
  ⟨e.message_id, "[Image OCR] " ++ extracted_text, senderName e, e.date,
   e.chat_id, chatUsernameFor e⟩

/-! ### The OCR pipeline during shutdown (`bot.py` `main` / `ocr_worker`)

`asyncio.Queue.join()` returns exactly when the queue's unfinished-task
counter (incremented by `put`, decremented by `task_done`) reaches zero.
`task_done` is called in exactly one place: the body of `ocr_worker`, after
a live worker has dequeued and processed a job.  The shutdown path of
`main` first cancels every worker and awaits their termination, and only
then awaits `ocr_queue.join()`. -/

/-- Pipeline state: live (non-cancelled) workers, jobs sitting in the
queue, and the queue's unfinished-task counter. -/
structure PipelineState where
  aliveWorkers : Nat
  queuedJobs : Nat
  unfinishedTasks : Nat
deriving Repr, DecidableEq

/-- Events that can change the pipeline state once dispatch of new jobs has
stopped: a live worker dequeues a job, processes (or discards) it and calls
`task_done`; or a worker observes cancellation and exits. -/
inductive PipelineStep : PipelineState → PipelineState → Prop where
  | processJob (w q u : Nat) :
      PipelineStep ⟨w + 1, q + 1, u + 1⟩ ⟨w + 1, q, u⟩
  | workerExit (w q u : Nat) :
      PipelineStep ⟨w + 1, q, u⟩ ⟨w, q, u⟩

/-- Multi-step reachability of pipeline states. -/
def PipelineReachable : PipelineState → PipelineState → Prop :=
  Relation.ReflTransGen PipelineStep

/-- Predicate: `await ocr_queue.join()` can return in state `s` iff the
unfinished-task counter is zero. -/
def joinCanReturn (s : PipelineState) : Prop := s.unfinishedTasks = 0

/-! ### Specification-side definitions

Definitions following the spec's words, used only to compare against the
embedded source in refinement-style theorems. -/

/-- Modelled from the spec: deduplication preserving first-seen order,
stated directly — keep the head, then drop its later occurrences from the
deduplicated tail. -/
def specDedupFirstSeen : List (List Char) → List (List Char)
  | [] => []
  | x :: xs => x :: (specDedupFirstSeen xs).filter (fun y => decide (y ≠ x))

/-- Modelled from the spec: "stops at the first pattern that yields any
match" — the first non-empty per-pattern result, never a merge. -/
def firstHit (results : List (List TelegramMessage)) : List TelegramMessage :=
  match results.find? (fun r => !r.isEmpty) with
  | some r => r
  | none => []

/-- Modelled from the spec: the candidate pattern list in the stated order
— literal, lowercase, uppercase, title-case, the fuzzy variant, then (only
for queries longer than 4 characters) the first-and-last-character-stripped
substring pattern. -/
def specPatternOrder (query : List Char) : List (List Char) :=
  [query, lowerStr query, upperStr query, capitalizeStr query,
   MessageDatabase.fuzzyText query] ++
    (if query.length > 4 then
      [['.', '*'] ++ lowerStr ((query.drop 1).dropLast) ++ ['.', '*']]
     else [])

/-- Modelled from the spec: the fuzzy variant "where each character in a
fixed confusion table is replaced by a character-class covering itself and
its confusable counterparts" — one independent per-character replacement,
as opposed to the source's sequential whole-string `str.replace` loop. -/
def specPerCharFuzzy (text : List Char) : List Char :=
  (lowerStr text).flatMap (fun c =>
    match MessageDatabase.substitutions.find? (fun p => p.1 == c) with
    | some p => p.2
    | none => [c])

/-- Number of stored MongoDB records with a given composite key. -/
def mongoKeyCount (s : MongoStore) (chat_id msg_id : Int) : Nat :=
  (s.filter (fun r => r.chat_id == chat_id && r.message_id == msg_id)).length

/-- Number of stored vector documents with a given document id. -/
def vectorIdCount (s : VectorStore) (doc_id : String) : Nat :=
  (s.filter (fun r => r.doc_id == doc_id)).length

/-- The chat's stored messages, as read back from the vector store. -/
def vChatMsgs (s : VectorStore) (chat_id : Int) : List TelegramMessage :=
  (s.filter (fun r => r.chat_id == chat_id)).map VectorRecord.toMessage

/-- The chat's stored messages, as read back from the MongoDB store. -/
def mChatMsgs (s : MongoStore) (chat_id : Int) : List TelegramMessage :=
  (s.filter (fun r => r.chat_id == chat_id)).map MongoRecord.toMessage

/-- Is the message inside the recency window (timestamp at or after the
threshold)? -/
def inWindow (threshold : Int) (m : TelegramMessage) : Bool :=
  decide (threshold ≤ m.date)

/-! ### Concrete instances used by witnesses and counterexamples -/

/-- A `$text`-search backend that always fails. -/
def failingTextSearch : MongoStore → Int → String → Nat →
    Except String (List TelegramMessage) :=
  fun _ _ _ _ => .error "text search backend unavailable"

/-- An embedding/vector-query backend that always fails. -/
def failingVectorBackend : Int → String → Nat → Except String (List VectorRecord) :=
  fun _ _ _ => .error "embedding backend unavailable"

/-- A store for chat 777 holding one message containing "рецензія". -/
def reviewStore : MongoStore :=
  [⟨100, 777, none, "рецензія", "olena", 1000, 1005⟩]

/-- A sample message with composite key `(7, 1)`. -/
def sampleMsgA : TelegramMessage := ⟨1, "hi there", "alice", 10, 7, none⟩

/-- A second sample message with the same composite key `(7, 1)`. -/
def sampleMsgB : TelegramMessage := ⟨1, "second write", "bob", 11, 7, some "chat"⟩

/-- A whitespace-only message. -/
def blankMsg : TelegramMessage := ⟨5, "   ", "carol", 12, 9, none⟩

/-- A photo event in a supergroup, used for the caption/OCR key collision. -/
def samplePhotoEvent : IncomingEvent :=
  ⟨42, -100500, "supergroup", some "mychat", some "dana", none, 2000⟩

/-- A vector store for chat 5: two old documents (dates 100 and 200) and
one recent document (date 950000). -/
def recentVStore : VectorStore :=
  [⟨"5_1", "old one", 1, 5, "", "a", 100, 100⟩,
   ⟨"5_2", "old two", 2, 5, "", "b", 200, 200⟩,
   ⟨"5_3", "new one", 3, 5, "", "c", 950000, 950000⟩]

/-- The same three messages in a MongoDB store for chat 5. -/
def recentMStore : MongoStore :=
  [⟨1, 5, none, "old one", "a", 100, 100⟩,
   ⟨2, 5, none, "old two", "b", 200, 200⟩,
   ⟨3, 5, none, "new one", "c", 950000, 950000⟩]

/-! ### General lemmas -/

theorem classSplit_snd_length (s : List Char) :
    (classSplit s).2.length ≤ s.length := by
  induction s with
  | nil => simp [classSplit]
  | cons c rest ih =>
    simp only [classSplit]
    by_cases h : c = ']'
    · simp [h]
    · simp only [h, if_false, List.length_cons]
      omega

section SortLemmas

variable {α : Type} (key : α → Int)

theorem insertDesc_perm (m : α) (l : List α) :
    (insertDesc key m l).Perm (m :: l) := by
  induction l with
  | nil => simp [insertDesc]
  | cons x xs ih =>
    simp only [insertDesc]
    by_cases h : key x ≤ key m
    · simp [h]
    · simp only [h, if_neg, if_false]
      exact (List.Perm.cons x ih).trans (List.Perm.swap m x xs)

theorem sortDescBy_perm (l : List α) : (sortDescBy key l).Perm l := by
  induction l with
  | nil => simp [sortDescBy]
  | cons x xs ih =>
    exact (insertDesc_perm key x (sortDescBy key xs)).trans (ih.cons x)

theorem insertDesc_sorted (m : α) (l : List α)
    (h : l.Pairwise (fun a b => key b ≤ key a)) :
    (insertDesc key m l).Pairwise (fun a b => key b ≤ key a) := by
  induction l with
  | nil => simp [insertDesc]
  | cons x xs ih =>
    rcases List.pairwise_cons.mp h with ⟨hx, hxs⟩
    simp only [insertDesc]
    by_cases hc : key x ≤ key m
    · rw [if_pos hc]
      refine List.pairwise_cons.mpr ⟨?_, h⟩
      intro b hb
      rcases List.mem_cons.mp hb with rfl | hb
      · exact hc
      · exact le_trans (hx b hb) hc
    · rw [if_neg hc]
      refine List.pairwise_cons.mpr ⟨?_, ih hxs⟩
      intro b hb
      have hb' := (insertDesc_perm key m xs).mem_iff.mp hb
      rcases List.mem_cons.mp hb' with rfl | hb'
      · omega
      · exact hx b hb'

theorem sortDescBy_sorted (l : List α) :
    (sortDescBy key l).Pairwise (fun a b => key b ≤ key a) := by
  induction l with
  | nil => simp [sortDescBy]
  | cons x xs ih => exact insertDesc_sorted key x _ ih

theorem sortDescBy_length (l : List α) :
    (sortDescBy key l).length = l.length :=
  (sortDescBy_perm key l).length_eq

/-- Elements of the prefix of a descending-sorted list dominate elements
of the corresponding suffix. -/
theorem sortDescBy_take_drop_le (l : List α) (n : Nat) :
    ∀ a ∈ (sortDescBy key l).take n, ∀ b ∈ (sortDescBy key l).drop n,
      key b ≤ key a := by
  have hsorted := sortDescBy_sorted key l
  rw [← List.take_append_drop n (sortDescBy key l)] at hsorted
  exact (List.pairwise_append.mp hsorted).2.2

variable (p : α → Bool)

/-- If at least `n` elements satisfy an upward-closed predicate (larger
keys inherit it), every element of the top-`n`-by-key prefix satisfies
it. -/
theorem sortDescBy_take_all_pred
    (hup : ∀ a b, p b = true → key b ≤ key a → p a = true)
    (l : List α) (n : Nat) (hcount : n ≤ l.countP p) :
    ∀ x ∈ (sortDescBy key l).take n, p x = true := by
  intro x hx
  by_contra hpx
  have hdropfalse : ∀ b ∈ (sortDescBy key l).drop n, p b = false := by
    intro b hb
    cases hpb : p b with
    | false => rfl
    | true =>
      exact absurd (hup x b hpb (sortDescBy_take_drop_le key l n x hx b hb)) hpx
  have hsplit : (sortDescBy key l).countP p =
      ((sortDescBy key l).take n).countP p +
        ((sortDescBy key l).drop n).countP p := by
    conv_lhs => rw [← List.take_append_drop n (sortDescBy key l)]
    exact List.countP_append _ _ _
  have hdropzero : ((sortDescBy key l).drop n).countP p = 0 :=
    List.countP_eq_zero.mpr (fun b hb => by simp [hdropfalse b hb])
  have htake_lt : ((sortDescBy key l).take n).countP p <
      ((sortDescBy key l).take n).length := by
    refine lt_of_le_of_ne (List.countP_le_length _) ?_
    intro heq
    have := List.countP_eq_length.mp heq x hx
    exact hpx (by simpa using this)
  have htake_len : ((sortDescBy key l).take n).length ≤ n :=
    List.length_take_le n _
  have hcnt : (sortDescBy key l).countP p = l.countP p :=
    (sortDescBy_perm key l).countP_eq p
  omega

/-- If at most `n` elements satisfy an upward-closed predicate, every
element satisfying it survives into the top-`n`-by-key prefix. -/
theorem sortDescBy_take_covers_pred
    (hup : ∀ a b, p b = true → key b ≤ key a → p a = true)
    (l : List α) (n : Nat) (hcount : l.countP p ≤ n) :
    ∀ x ∈ l, p x = true → x ∈ (sortDescBy key l).take n := by
  intro x hxl hpx
  have hxL : x ∈ (sortDescBy key l) := ((sortDescBy_perm key l).mem_iff).mpr hxl
  rw [← List.take_append_drop n (sortDescBy key l)] at hxL
  rcases List.mem_append.mp hxL with htake | hdrop
  · exact htake
  · exfalso
    have htakeall : ∀ a ∈ (sortDescBy key l).take n, p a = true := by
      intro a ha
      exact hup a x hpx (sortDescBy_take_drop_le key l n a ha x hdrop)
    have htake_len : ((sortDescBy key l).take n).length = n := by
      have hne : (sortDescBy key l).drop n ≠ [] := List.ne_nil_of_mem hdrop
      have hlen : n < (sortDescBy key l).length := by
        by_contra hge
        push_neg at hge
        exact hne (List.drop_eq_nil_of_le hge)
      rw [List.length_take]
      omega
    have h1 : ((sortDescBy key l).take n).countP p = n := by
      rw [List.countP_eq_length.mpr htakeall]
      exact htake_len
    have h2 : 0 < ((sortDescBy key l).drop n).countP p :=
      List.countP_pos_iff.mpr ⟨x, hdrop, by simp [hpx]⟩
    have hsplit : (sortDescBy key l).countP p =
        ((sortDescBy key l).take n).countP p +
          ((sortDescBy key l).drop n).countP p := by
      conv_lhs => rw [← List.take_append_drop n (sortDescBy key l)]
      exact List.countP_append _ _ _
    have hcnt : (sortDescBy key l).countP p = l.countP p :=
      (sortDescBy_perm key l).countP_eq p
    omega

end SortLemmas

/-- Mapping a key-preserving function commutes with the descending sort. -/
theorem sortDescBy_map {α β : Type} (key : α → Int) (key' : β → Int)
    (f : α → β) (hkey : ∀ a, key' (f a) = key a) (l : List α) :
    (sortDescBy key l).map f = sortDescBy key' (l.map f) := by
  have hins : ∀ (x : α) (l : List α),
      (insertDesc key x l).map f = insertDesc key' (f x) (l.map f) := by
    intro x l
    induction l with
    | nil => simp [insertDesc]
    | cons y ys ih =>
      simp only [insertDesc, List.map_cons, hkey]
      by_cases h : key y ≤ key x
      · rw [if_pos h, if_pos h]
        simp
      · rw [if_neg h, if_neg h]
        simp only [List.map_cons, ih]
  induction l with
  | nil => simp [sortDescBy]
  | cons x xs ih =>
    simp only [sortDescBy, List.map_cons, hins, ih]

/-- Reversing the truncated descending sort yields an ascending list. -/
theorem reverse_take_sortDesc_ascending {α : Type} (key : α → Int)
    (l : List α) (n : Nat) :
    (((sortDescBy key l).take n).reverse).Pairwise
      (fun a b => key a ≤ key b) := by
  rw [List.pairwise_reverse]
  exact (sortDescBy_sorted key l).sublist (List.take_sublist n _)

theorem topAsc_length {α : Type} (key : α → Int) (l : List α) (n : Nat) :
    (((sortDescBy key l).take n).reverse).length = min n l.length := by
  simp [List.length_take, sortDescBy_length]

theorem topAsc_mem {α : Type} (key : α → Int) (l : List α) (n : Nat) (a : α)
    (h : a ∈ ((sortDescBy key l).take n).reverse) : a ∈ l :=
  (sortDescBy_perm key l).mem_iff.mp (List.mem_of_mem_take (List.mem_reverse.mp h))

theorem topAsc_all_pred {α : Type} (key : α → Int) (p : α → Bool)
    (hup : ∀ a b, p b = true → key b ≤ key a → p a = true)
    (l : List α) (n : Nat) (hcount : n ≤ l.countP p) :
    ∀ a ∈ ((sortDescBy key l).take n).reverse, p a = true := by
  intro a ha
  exact sortDescBy_take_all_pred key p hup l n hcount a (List.mem_reverse.mp ha)

theorem topAsc_covers {α : Type} (key : α → Int) (p : α → Bool)
    (hup : ∀ a b, p b = true → key b ≤ key a → p a = true)
    (l : List α) (n : Nat) (hcount : l.countP p ≤ n) :
    ∀ x ∈ l, p x = true → x ∈ ((sortDescBy key l).take n).reverse := by
  intro x hx hpx
  exact List.mem_reverse.mpr (sortDescBy_take_covers_pred key p hup l n hcount x hx hpx)

/-- The filtered-then-converted window documents are the converted chat
messages filtered by the window predicate. -/
theorem window_docs_as_filter (vs : VectorStore) (chat_id threshold : Int) :
    (vs.filter (fun r => r.chat_id == chat_id && decide (threshold ≤ r.date))).map
        VectorRecord.toMessage =
      (vChatMsgs vs chat_id).filter (inWindow threshold) := by
  unfold vChatMsgs inWindow
  rw [List.filter_map, List.filter_filter]
  congr 1
  refine List.filter_congr ?_
  intro r _
  simp [Function.comp, VectorRecord.toMessage, Bool.and_comm]

/-- Rewriting `VectorDatabase.get_recent_messages` in closed form: the reversed
`limit`-prefix of the descending sort of either the window messages (when
they are at least `limit` many) or of all the chat's messages. -/
theorem vector_recent_structure (vs : VectorStore) (now chat_id : Int)
    (limit : Nat) (days_back : Int) :
    VectorDatabase.get_recent_messages vs now chat_id limit days_back =
      (if ((vChatMsgs vs chat_id).filter
            (inWindow (now - days_back * 86400))).length < limit
       then ((sortDescBy (fun m : TelegramMessage => m.date)
           (vChatMsgs vs chat_id)).take limit).reverse
       else ((sortDescBy (fun m : TelegramMessage => m.date)
           ((vChatMsgs vs chat_id).filter
             (inWindow (now - days_back * 86400)))).take limit).reverse) := by
  simp only [VectorDatabase.get_recent_messages]
  rw [window_docs_as_filter vs chat_id (now - days_back * 86400), sortDescBy_length]
  rfl

/-- Rewriting `MessageDatabase.get_recent_messages` in closed form: the reversed
`limit`-prefix of the descending sort of all the chat's messages. -/
theorem mongo_recent_structure (ms : MongoStore) (chat_id : Int) (limit : Nat) :
    MessageDatabase.get_recent_messages ms chat_id limit =
      ((sortDescBy (fun m : TelegramMessage => m.date)
        (mChatMsgs ms chat_id)).take limit).reverse := by
  simp only [MessageDatabase.get_recent_messages]
  unfold mChatMsgs
  rw [← sortDescBy_map (fun r : MongoRecord => r.date)
    (fun m : TelegramMessage => m.date) MongoRecord.toMessage (fun a => rfl),
    ← List.map_take]

theorem create_fuzzy_patterns_eq_specOrder (q : List Char) :
    MessageDatabase.create_fuzzy_patterns q = specPatternOrder q := by
  by_cases h : q.length > 4 <;>
    simp [MessageDatabase.create_fuzzy_patterns, specPatternOrder, h]

theorem foldl_dedup_eq_specDedup (l : List (List Char)) :
    ∀ acc : List (List Char),
      l.foldl (fun acc p => if p ∈ acc then acc else acc ++ [p]) acc =
        acc ++ (specDedupFirstSeen l).filter (fun y => decide (y ∉ acc)) := by
  induction l with
  | nil => intro acc; simp [specDedupFirstSeen]
  | cons x xs ih =>
    intro acc
    simp only [List.foldl_cons, specDedupFirstSeen]
    by_cases hx : x ∈ acc
    · rw [if_pos hx, ih acc, List.filter_cons, List.filter_filter]
      have hxd : decide (x ∉ acc) = false := by simp [hx]
      rw [hxd]
      simp only [Bool.false_eq_true, if_false]
      congr 1
      refine List.filter_congr ?_
      intro y _
      by_cases hyx : y = x
      · subst hyx; simp [hx]
      · simp [hyx]
    · rw [if_neg hx, ih (acc ++ [x]), List.filter_cons, List.filter_filter]
      have hxd : decide (x ∉ acc) = true := by simp [hx]
      rw [hxd]
      simp only [if_true]
      rw [List.append_assoc, List.singleton_append]
      congr 1
      congr 1
      refine List.filter_congr ?_
      intro y _
      by_cases hyx : y = x
      · subst hyx; simp
      · simp [hyx]

theorem dedupPreservingOrder_eq_specDedup (l : List (List Char)) :
    MessageDatabase.dedupPreservingOrder l = specDedupFirstSeen l := by
  have h := foldl_dedup_eq_specDedup l []
  simpa [MessageDatabase.dedupPreservingOrder] using h

theorem tryPatterns_eq_firstHit (rmatch : List Char → List Char → Bool)
    (s : MongoStore) (chat_id : Int) (limit : Nat) (pats : List (List Char)) :
    MessageDatabase.tryPatterns rmatch s chat_id limit pats =
      firstHit (pats.map (fun p => MessageDatabase.regexFind rmatch s chat_id p limit)) := by
  induction pats with
  | nil => simp [MessageDatabase.tryPatterns, firstHit]
  | cons p rest ih =>
    simp only [MessageDatabase.tryPatterns, List.map_cons]
    by_cases h : (MessageDatabase.regexFind rmatch s chat_id p limit).isEmpty
    · rw [if_pos h, ih]
      simp only [firstHit, List.find?_cons]
      rw [show (!(MessageDatabase.regexFind rmatch s chat_id p limit).isEmpty) = false by
        simp [h]]
    · rw [if_neg h]
      simp only [firstHit, List.find?_cons]
      rw [show (!(MessageDatabase.regexFind rmatch s chat_id p limit).isEmpty) = true by
        simp_all]

/-! ### Helper lemmas about saving -/

/-- After a `MessageDatabase.save_message`, a record with the saved
message's `(chat_id, message_id)` key is present. -/
theorem mongo_hasKey_after_save (s : MongoStore) (now : Int) (m : TelegramMessage) :
    (MessageDatabase.save_message s now m).any
      (fun q => q.chat_id == m.chat_id && q.message_id == m.id) = true := by
  unfold MessageDatabase.save_message MessageDatabase.insert_one
  by_cases h : s.any (fun q => q.chat_id == m.chat_id && q.message_id == m.id)
  · rw [if_pos h]
    exact h
  · rw [if_neg h]
    simp

/-- A `MessageDatabase.save_message` with a key already present leaves the
store unchanged (the duplicate-key error is swallowed). -/
theorem mongo_save_duplicate_noop (s : MongoStore) (now : Int) (m : TelegramMessage)
    (h : s.any (fun q => q.chat_id == m.chat_id && q.message_id == m.id) = true) :
    MessageDatabase.save_message s now m = s := by
  unfold MessageDatabase.save_message MessageDatabase.insert_one
  rw [if_pos h]

theorem mongo_save_keyCount (s : MongoStore) (now : Int) (m : TelegramMessage)
    (chat_id msg_id : Int) (h : mongoKeyCount s chat_id msg_id ≤ 1) :
    mongoKeyCount (MessageDatabase.save_message s now m) chat_id msg_id ≤ 1 := by
  unfold MessageDatabase.save_message MessageDatabase.insert_one
  by_cases hdup : s.any (fun q => q.chat_id == m.chat_id && q.message_id == m.id)
  · rw [if_pos hdup]; exact h
  · rw [if_neg hdup]
    simp only [mongoKeyCount, List.filter_append] at *
    by_cases hk : m.chat_id = chat_id ∧ m.id = msg_id
    · have hnone : s.filter (fun r => r.chat_id == chat_id && r.message_id == msg_id) = [] := by
        rw [List.filter_eq_nil_iff]
        intro r hr hmem
        refine hdup (List.any_eq_true.mpr ⟨r, hr, ?_⟩)
        rw [hk.1, hk.2]
        exact hmem
      rw [hnone, List.nil_append]
      exact List.length_filter_le _ _
    · have : (([⟨m.id, m.chat_id, m.chat_username, m.text, m.sender, m.date, now⟩] :
          MongoStore).filter (fun r => r.chat_id == chat_id && r.message_id == msg_id)) = [] := by
        simp only [List.filter_eq_nil_iff]
        intro r hr
        simp only [List.mem_singleton] at hr
        subst hr
        simp only [Bool.and_eq_true, beq_iff_eq, not_and]
        intro h1 h2
        exact hk ⟨h1, h2⟩
      rw [this]
      simpa using h

/-- After a `VectorDatabase.save_message` of a message with non-empty
trimmed text, a document with the message's id is present. -/
theorem vector_hasId_after_save (s : VectorStore) (now : Int) (m : TelegramMessage)
    (h : stripEmpty m.text = false) :
    (VectorDatabase.save_message s now m).any
      (fun r => r.doc_id == VectorDatabase.createDocumentId m) = true := by
  unfold VectorDatabase.save_message
  rw [h]
  simp only [Bool.false_eq_true, if_false]
  by_cases hdup : s.any (fun r => r.doc_id == VectorDatabase.createDocumentId m)
  · rw [if_pos hdup]; exact hdup
  · rw [if_neg hdup]
    simp

/-- A `VectorDatabase.save_message` with the document id already present
leaves the store unchanged. -/
theorem vector_save_duplicate_noop (s : VectorStore) (now : Int) (m : TelegramMessage)
    (h : s.any (fun r => r.doc_id == VectorDatabase.createDocumentId m) = true) :
    VectorDatabase.save_message s now m = s := by
  unfold VectorDatabase.save_message
  by_cases he : stripEmpty m.text
  · rw [he]
    simp
  · rw [show stripEmpty m.text = false by simpa using he]
    simp only [Bool.false_eq_true, if_false]
    rw [if_pos h]

theorem vector_save_idCount (s : VectorStore) (now : Int) (m : TelegramMessage)
    (doc_id : String) (h : vectorIdCount s doc_id ≤ 1) :
    vectorIdCount (VectorDatabase.save_message s now m) doc_id ≤ 1 := by
  unfold VectorDatabase.save_message
  by_cases he : stripEmpty m.text
  · rw [he]; simp only [if_true]; exact h
  · rw [show stripEmpty m.text = false by simpa using he]
    simp only [Bool.false_eq_true, if_false]
    by_cases hdup : s.any (fun r => r.doc_id == VectorDatabase.createDocumentId m)
    · rw [if_pos hdup]; exact h
    · rw [if_neg hdup]
      simp only [vectorIdCount, List.filter_append] at *
      by_cases hk : VectorDatabase.createDocumentId m = doc_id
      · have hnone : s.filter (fun r => r.doc_id == doc_id) = [] := by
          rw [List.filter_eq_nil_iff]
          intro r hr hmem
          refine hdup (List.any_eq_true.mpr ⟨r, hr, ?_⟩)
          rw [hk]
          exact hmem
        rw [hnone, List.nil_append]
        exact List.length_filter_le _ _
      · have : (([⟨VectorDatabase.createDocumentId m, m.text, m.id, m.chat_id,
            m.chat_username.getD "", m.sender, m.date, now⟩] :
            VectorStore).filter (fun r => r.doc_id == doc_id)) = [] := by
          simp only [List.filter_eq_nil_iff]
          intro r hr
          simp only [List.mem_singleton] at hr
          subst hr
          simpa using hk
        rw [this]
        simpa using h

/-- Same `(chat_id, message_id)` key gives the same ChromaDB document id. -/
theorem createDocumentId_congr (m m' : TelegramMessage)
    (hc : m'.chat_id = m.chat_id) (hi : m'.id = m.id) :
    VectorDatabase.createDocumentId m' = VectorDatabase.createDocumentId m := by
  unfold VectorDatabase.createDocumentId
  rw [hc, hi]

/-! ### Claim theorems -/

/-- C1: for every pair of save calls with the same `(chat_id, message_id)`
composite key, at most one stored record ever exists afterward — the
second save leaves the store unchanged (both stores; for the vector store
the first message's text is non-empty after trimming, as the data model
requires of every Message), and a store holding at most one record per key
keeps that invariant across any save.  Both save operations return plain
stores — every backend error is swallowed inside them, so no call raises. -/
theorem C1_duplicate_saves_at_most_one_record :
    (∀ (s : MongoStore) (now now' : Int) (m m' : TelegramMessage),
       m'.chat_id = m.chat_id → m'.id = m.id →
       MessageDatabase.save_message (MessageDatabase.save_message s now m) now' m' =
         MessageDatabase.save_message s now m) ∧
    (∀ (s : MongoStore) (now : Int) (m : TelegramMessage) (chat_id msg_id : Int),
       mongoKeyCount s chat_id msg_id ≤ 1 →
       mongoKeyCount (MessageDatabase.save_message s now m) chat_id msg_id ≤ 1) ∧
    (∀ (s : VectorStore) (now now' : Int) (m m' : TelegramMessage),
       stripEmpty m.text = false →
       m'.chat_id = m.chat_id → m'.id = m.id →
       VectorDatabase.save_message (VectorDatabase.save_message s now m) now' m' =
         VectorDatabase.save_message s now m) ∧
    (∀ (s : VectorStore) (now : Int) (m : TelegramMessage) (doc_id : String),
       vectorIdCount s doc_id ≤ 1 →
       vectorIdCount (VectorDatabase.save_message s now m) doc_id ≤ 1) := by
  refine ⟨?_, ?_, ?_, ?_⟩
  · intro s now now' m m' hc hi
    refine mongo_save_duplicate_noop _ now' m' ?_
    simp only [hc, hi]
    exact mongo_hasKey_after_save s now m
  · intro s now m chat_id msg_id h
    exact mongo_save_keyCount s now m chat_id msg_id h
  · intro s now now' m m' he hc hi
    refine vector_save_duplicate_noop _ now' m' ?_
    rw [createDocumentId_congr m m' hc hi]
    exact vector_hasId_after_save s now m he
  · intro s now m doc_id h
    exact vector_save_idCount s now m doc_id h

/-- C1 witness: the duplicate-save no-op and the key-count bound at
concrete messages `sampleMsgA`/`sampleMsgB` (same key `(7, 1)`). -/
theorem C1_duplicate_saves_witness :
    (MessageDatabase.save_message (MessageDatabase.save_message [] 20 sampleMsgA) 21 sampleMsgB =
       MessageDatabase.save_message [] 20 sampleMsgA) ∧
    (mongoKeyCount (MessageDatabase.save_message [] 20 sampleMsgA) 7 1 ≤ 1) ∧
    (VectorDatabase.save_message (VectorDatabase.save_message [] 20 sampleMsgA) 21 sampleMsgB =
       VectorDatabase.save_message [] 20 sampleMsgA) ∧
    (vectorIdCount (VectorDatabase.save_message [] 20 sampleMsgA) "7_1" ≤ 1) :=
  ⟨C1_duplicate_saves_at_most_one_record.1 [] 20 21 sampleMsgA sampleMsgB rfl rfl,
   C1_duplicate_saves_at_most_one_record.2.1 [] 20 sampleMsgA 7 1 (by decide),
   C1_duplicate_saves_at_most_one_record.2.2.1 [] 20 21 sampleMsgA sampleMsgB
     (by decide) rfl rfl,
   C1_duplicate_saves_at_most_one_record.2.2.2 [] 20 sampleMsgA "7_1" (by decide)⟩

/-- C2 counterexample: the MongoDB store's `save_message` has no empty-text
guard — saving a whitespace-only message into an empty store persists a
record, so the claim is false for `MessageDatabase.save_message`. -/
theorem C2_mongo_persists_blank_text :
    stripEmpty blankMsg.text = true ∧
    MessageDatabase.save_message [] 30 blankMsg =
      [⟨5, 9, none, "   ", "carol", 12, 30⟩] := by
  constructor
  · decide
  · rfl

/-- C2 amended: for the vector store, saving a message whose trimmed text
is empty is a no-op — the store is unchanged. -/
theorem C2_vector_empty_text_guard (s : VectorStore) (now : Int)
    (m : TelegramMessage) (h : stripEmpty m.text = true) :
    VectorDatabase.save_message s now m = s := by
  unfold VectorDatabase.save_message
  rw [h]
  simp

/-- C2 witness: the vector-store empty-text guard at the concrete
whitespace-only message. -/
theorem C2_vector_empty_text_witness :
    VectorDatabase.save_message [] 30 blankMsg = [] :=
  C2_vector_empty_text_guard [] 30 blankMsg (by decide)

/-- C3 counterexample: `MessageDatabase.search_messages` has no
`try`/`except` around the `$text` query — a backend failure propagates to
the caller instead of yielding an empty result. -/
theorem C3_mongo_search_propagates_backend_error :
    MessageDatabase.search_messages failingTextSearch pcreMatchI reviewStore 777 "hello" 10 =
      .error "text search backend unavailable" := rfl

/-- C3 amended: `VectorDatabase.search_messages` converts every failure of
the embedding/search backend into an empty result. -/
theorem C3_vector_search_failure_empty
    (backend : Int → String → Nat → Except String (List VectorRecord))
    (vsl : Nat) (chat_id : Int) (query : String) (limit : Nat) (e : String)
    (h : backend chat_id query (min limit vsl) = .error e) :
    VectorDatabase.search_messages backend vsl chat_id query limit = [] := by
  unfold VectorDatabase.search_messages
  rw [h]

/-- C3 witness: the failing backend at concrete arguments yields `[]`. -/
theorem C3_vector_search_failure_witness :
    VectorDatabase.search_messages failingVectorBackend 10 777 "hello" 10 = [] :=
  C3_vector_search_failure_empty failingVectorBackend 10 777 "hello" 10
    "embedding backend unavailable" rfl

/-- C6: the fallback matcher builds its candidate patterns in the fixed
order literal/lowercase/uppercase/title-case, then the fuzzy variant, then
(only for queries longer than 4 characters) the stripped substring
pattern; deduplicates them preserving first-seen order; tries them in that
order; and returns exactly the matches of the first pattern that yields
any match, never merging results across patterns. -/
theorem C6_first_match_pattern_protocol
    (rmatch : List Char → List Char → Bool) (s : MongoStore) (chat_id : Int)
    (query : String) (limit : Nat) :
    MessageDatabase.search_messages_regex rmatch s chat_id query limit =
      firstHit ((specDedupFirstSeen (specPatternOrder query.data)).map
        (fun p => MessageDatabase.regexFind rmatch s chat_id p limit)) := by
  simp only [MessageDatabase.search_messages_regex]
  rw [create_fuzzy_patterns_eq_specOrder, dedupPreservingOrder_eq_specDedup,
    tryPatterns_eq_firstHit]

/-- C9: for a photo event with a caption, the caption record and the
OCR-derived record share the composite key `(chat_id, message_id)`, so
whenever the caption record commits first the OCR record's save is
silently dropped and the store is unchanged. -/
theorem C9_caption_first_drops_ocr_record
    (e : IncomingEvent) (caption extracted : String) (_hcap : caption ≠ "")
    (s : MongoStore) (now₁ now₂ : Int) :
    (captionMessage e caption).chat_id = (ocrMessage e extracted).chat_id ∧
    (captionMessage e caption).id = (ocrMessage e extracted).id ∧
    MessageDatabase.save_message
        (MessageDatabase.save_message s now₁ (captionMessage e caption)) now₂
        (ocrMessage e extracted) =
      MessageDatabase.save_message s now₁ (captionMessage e caption) := by
  refine ⟨rfl, rfl, ?_⟩
  refine mongo_save_duplicate_noop _ now₂ (ocrMessage e extracted) ?_
  exact mongo_hasKey_after_save s now₁ (captionMessage e caption)

/-- C9 witness: the concrete photo event with caption "sunset" and OCR
text "street sign". -/
theorem C9_caption_first_witness :
    MessageDatabase.save_message
        (MessageDatabase.save_message [] 50 (captionMessage samplePhotoEvent "sunset")) 51
        (ocrMessage samplePhotoEvent "street sign") =
      MessageDatabase.save_message [] 50 (captionMessage samplePhotoEvent "sunset") :=
  (C9_caption_first_drops_ocr_record samplePhotoEvent "sunset" "street sign"
    (by decide) [] 50 51).2.2

/-- C10: the retrieval orchestrator's result equals the store's search
operation alone, wrapped with the query and `total_found` equal to the
length of the returned message sequence — the orchestrator's extra regex
fallback call never changes the outcome, because the store's search
already ran the identical deterministic regex fallback when its text
search came back empty. -/
theorem C10_client_refines_db_search
    (textSearch : MongoStore → Int → String → Nat → Except String (List TelegramMessage))
    (rmatch : List Char → List Char → Bool) (max_messages_to_fetch : Nat)
    (s : MongoStore) (chat_id : Int) (query : String) (limit? : Option Nat) :
    TelegramSearchClient.search_messages textSearch rmatch max_messages_to_fetch
        s chat_id query limit? =
      (match MessageDatabase.search_messages textSearch rmatch s chat_id query
          (match limit? with
           | some l => if l = 0 then max_messages_to_fetch else l
           | none => max_messages_to_fetch) with
       | .error e => .error e
       | .ok messages => .ok ⟨query, messages, messages.length⟩) := by
  have hgen : ∀ L : Nat,
      (match MessageDatabase.search_messages textSearch rmatch s chat_id query L with
       | .error e => (Except.error e : Except String SearchResult)
       | .ok messages =>
         let messages :=
           if messages.isEmpty then
             MessageDatabase.search_messages_regex rmatch s chat_id query L
           else messages
         Except.ok (⟨query, messages, messages.length⟩ : SearchResult)) =
      (match MessageDatabase.search_messages textSearch rmatch s chat_id query L with
       | .error e => (Except.error e : Except String SearchResult)
       | .ok messages => .ok ⟨query, messages, messages.length⟩) := by
    intro L
    unfold MessageDatabase.search_messages
    cases textSearch s chat_id query L with
    | error e => rfl
    | ok messages =>
      by_cases hm : messages.isEmpty
      · simp [hm, ite_self]
      · simp [hm]
  exact hgen _

/-! ### Cooldown lemmas and C8 -/

theorem lookup_map_replace (chat_id : Int) (t : Rat) (cds : Cooldowns)
    (h : cds.any (fun p => p.1 == chat_id) = true) :
    lookupCooldown
        (cds.map (fun p => if p.1 == chat_id then (chat_id, t) else p)) chat_id =
      some t := by
  induction cds with
  | nil => simp at h
  | cons p ps ih =>
    simp only [List.map_cons]
    by_cases hp : (p.1 == chat_id) = true
    · simp [lookupCooldown, List.find?_cons, hp]
    · have hps : ps.any (fun p => p.1 == chat_id) = true := by
        simpa [hp] using h
      simp only [hp, Bool.false_eq_true, if_false]
      simpa [lookupCooldown, List.find?_cons, hp] using ih hps

theorem lookup_append_single (chat_id : Int) (t : Rat) (cds : Cooldowns)
    (h : cds.any (fun p => p.1 == chat_id) = false) :
    lookupCooldown (cds ++ [(chat_id, t)]) chat_id = some t := by
  induction cds with
  | nil => simp [lookupCooldown, List.find?_cons]
  | cons p ps ih =>
    rw [List.any_cons] at h
    have hp : (p.1 == chat_id) = false := by
      cases hpc : (p.1 == chat_id)
      · rfl
      · rw [hpc] at h; simp at h
    have hps : ps.any (fun p => p.1 == chat_id) = false := by
      rw [hp] at h; simpa using h
    simpa [lookupCooldown, List.find?_cons, hp] using ih hps

/-- After `cooldowns[chat_id] = t`, looking up `chat_id` yields `t`. -/
theorem lookup_setCooldown (cds : Cooldowns) (chat_id : Int) (t : Rat) :
    lookupCooldown (setCooldown cds chat_id t) chat_id = some t := by
  unfold setCooldown
  by_cases h : cds.any (fun p => p.1 == chat_id)
  · rw [if_pos h]
    exact lookup_map_replace chat_id t cds h
  · rw [if_neg h]
    exact lookup_append_single chat_id t cds (Bool.eq_false_iff.mpr h)

/-- An allowed request records its own arrival time. -/
theorem allowed_sets_timestamp (window : Rat) (cds : Cooldowns) (chat_id : Int)
    (t₁ : Rat) (cds₁ : Cooldowns)
    (h : checkCooldown window cds chat_id t₁ = (.allowed, cds₁)) :
    cds₁ = setCooldown cds chat_id t₁ := by
  unfold checkCooldown at h
  cases hl : lookupCooldown cds chat_id with
  | none =>
    rw [hl] at h
    exact ((Prod.mk.injEq _ _ _ _).mp h).2.symm
  | some last_time =>
    rw [hl] at h
    have h' : (if 0 < window - (t₁ - last_time) then
          ((RateDecision.rejected (window - (t₁ - last_time)), cds) :
            RateDecision × Cooldowns)
        else (RateDecision.allowed, setCooldown cds chat_id t₁)) =
        (RateDecision.allowed, cds₁) := h
    by_cases hr : 0 < window - (t₁ - last_time)
    · rw [if_pos hr] at h'
      cases ((Prod.mk.injEq _ _ _ _).mp h').1
    · rw [if_neg hr] at h'
      exact ((Prod.mk.injEq _ _ _ _).mp h').2.symm

/-- Behaviour of one cooldown window after an allowed request at `t₁`: a
request at `t₂` within the window is rejected with the positive remaining
time and the dict is unchanged; a request at `t₃` at or past the window is
allowed. -/
theorem cooldown_window_behavior (window : Rat) (cds : Cooldowns)
    (chat_id : Int) (t₁ t₂ t₃ : Rat) (cds₁ : Cooldowns)
    (h : checkCooldown window cds chat_id t₁ = (.allowed, cds₁)) :
    (t₂ - t₁ < window →
      checkCooldown window cds₁ chat_id t₂ =
        (.rejected (window - (t₂ - t₁)), cds₁) ∧ 0 < window - (t₂ - t₁)) ∧
    (window ≤ t₃ - t₁ →
      (checkCooldown window cds₁ chat_id t₃).1 = .allowed) := by
  have hset := allowed_sets_timestamp window cds chat_id t₁ cds₁ h
  subst hset
  have hlook := lookup_setCooldown cds chat_id t₁
  constructor
  · intro h₂
    have hpos : 0 < window - (t₂ - t₁) := by linarith
    refine ⟨?_, hpos⟩
    unfold checkCooldown
    rw [hlook]
    simp only [if_pos hpos]
  · intro h₃
    have hneg : ¬ 0 < window - (t₃ - t₁) := by linarith
    unfold checkCooldown
    rw [hlook]
    simp only [if_neg hneg]

/-- C8: per chat, after an allowed ask-style request, a second request
within 10 seconds is rejected with a positive remaining wait and the
stored timestamp is unchanged (the clock resets only on an allowed
request); a request at or past 10 seconds succeeds.  The same holds for
summary requests with the 5-minute (300 s) window. -/
theorem C8_cooldown_enforcement :
    (∀ (cds : Cooldowns) (chat_id : Int) (t₁ t₂ t₃ : Rat) (cds₁ : Cooldowns),
       checkCooldown askCooldownWindow cds chat_id t₁ = (.allowed, cds₁) →
       (t₂ - t₁ < 10 →
         checkCooldown askCooldownWindow cds₁ chat_id t₂ =
           (.rejected (10 - (t₂ - t₁)), cds₁) ∧ 0 < (10 : Rat) - (t₂ - t₁)) ∧
       (10 ≤ t₃ - t₁ →
         (checkCooldown askCooldownWindow cds₁ chat_id t₃).1 = .allowed)) ∧
    (∀ (cds : Cooldowns) (chat_id : Int) (t₁ t₂ t₃ : Rat) (cds₁ : Cooldowns),
       checkCooldown summaryCooldownWindow cds chat_id t₁ = (.allowed, cds₁) →
       (t₂ - t₁ < 300 →
         checkCooldown summaryCooldownWindow cds₁ chat_id t₂ =
           (.rejected (300 - (t₂ - t₁)), cds₁) ∧ 0 < (300 : Rat) - (t₂ - t₁)) ∧
       (300 ≤ t₃ - t₁ →
         (checkCooldown summaryCooldownWindow cds₁ chat_id t₃).1 = .allowed)) := by
  constructor
  · intro cds chat_id t₁ t₂ t₃ cds₁ h
    exact cooldown_window_behavior askCooldownWindow cds chat_id t₁ t₂ t₃ cds₁ h
  · intro cds chat_id t₁ t₂ t₃ cds₁ h
    exact cooldown_window_behavior summaryCooldownWindow cds chat_id t₁ t₂ t₃ cds₁ h

/-- C8 witness: concrete requests at times 0, 3 and 12 for the ask window
and at times 0, 100 and 400 for the summary window. -/
theorem C8_cooldown_witness :
    ((checkCooldown askCooldownWindow [(1, 0)] 1 3 =
        (.rejected (10 - (3 - 0)), [(1, 0)]) ∧ 0 < (10 : Rat) - (3 - 0)) ∧
      (checkCooldown askCooldownWindow [(1, 0)] 1 12).1 = .allowed) ∧
    ((checkCooldown summaryCooldownWindow [(2, 0)] 2 100 =
        (.rejected (300 - (100 - 0)), [(2, 0)]) ∧ 0 < (300 : Rat) - (100 - 0)) ∧
      (checkCooldown summaryCooldownWindow [(2, 0)] 2 400).1 = .allowed) := by
  have hask := C8_cooldown_enforcement.1 [] 1 0 3 12 [(1, 0)] rfl
  have hsum := C8_cooldown_enforcement.2 [] 2 0 100 400 [(2, 0)] rfl
  exact ⟨⟨hask.1 (by norm_num), hask.2 (by norm_num)⟩,
         ⟨hsum.1 (by norm_num), hsum.2 (by norm_num)⟩⟩

/-! ### Pipeline shutdown and C7 -/

/-- With no live worker, no pipeline transition is possible: the state is
frozen. -/
theorem pipeline_no_workers_stuck (q u : Nat) (s' : PipelineState)
    (h : PipelineReachable ⟨0, q, u⟩ s') : s' = ⟨0, q, u⟩ := by
  induction h with
  | refl => rfl
  | tail hr hstep ih =>
    rw [ih] at hstep
    cases hstep

/-- C7 (code-bug evidence): with `n + 1` jobs still queued when the
shutdown path reaches the drain phase — every worker already cancelled and
awaited — no reachable state has a zero unfinished-task counter, so
`await ocr_queue.join()` never returns and the queued jobs are never
processed; the claim's "all N jobs processed before shutdown returns" is
unattainable. -/
theorem C7_shutdown_drain_never_completes (n : Nat) (s' : PipelineState)
    (h : PipelineReachable ⟨0, n + 1, n + 1⟩ s') : ¬ joinCanReturn s' := by
  have hs := pipeline_no_workers_stuck (n + 1) (n + 1) s' h
  subst hs
  simp [joinCanReturn]

/-- C7 witness: the drain-phase start state with one queued job. -/
theorem C7_shutdown_drain_witness :
    ¬ joinCanReturn ⟨0, 1, 1⟩ :=
  C7_shutdown_drain_never_completes 0 ⟨0, 1, 1⟩ Relation.ReflTransGen.refl

/-- C5 (code-bug evidence): with the single stored message "рецензія" in
chat 777, the fallback matcher finds nothing for the OCR-style query
"резензія".  The sequential `str.replace` loop rewrites characters that
earlier replacements already inserted into the pattern, corrupting the
fuzzy pattern into one that demands literal `]` characters; the
independent per-character replacement the spec describes would have
matched the stored message. -/
theorem C5_fuzzy_query_finds_nothing :
    MessageDatabase.search_messages_regex pcreMatchI reviewStore 777 "резензія" 10 = [] ∧
    MessageDatabase.fuzzyText "резензія".data =
      "[рp][ее][з[цз]][ее][н[пн]][з[цз]][іи]я".data ∧
    pcreMatchI (MessageDatabase.fuzzyText "резензія".data) "рецензія".data = false ∧
    pcreMatchI (specPerCharFuzzy "резензія".data) "рецензія".data = true := by
  refine ⟨?_, ?_, ?_, ?_⟩ <;> decide

/-! ### C4: recent messages with windowed backfill -/

/-- The window predicate is inherited by larger timestamps. -/
theorem inWindow_upward (threshold : Int) :
    ∀ a b : TelegramMessage, inWindow threshold b = true →
      b.date ≤ a.date → inWindow threshold a = true := by
  intro a b hb hle
  simp only [inWindow, decide_eq_true_eq] at *
  omega

/-- C4: both recent-messages operations return at most `limit` messages,
sorted ascending by timestamp; when at least `limit` messages fall inside
the recency window the result stays inside the window; when fewer do, the
result is backfilled with older messages up to `limit` total (every window
message still included). -/
theorem C4_recent_windowed_backfill
    (vs : VectorStore) (ms : MongoStore) (now chat_id : Int) (limit : Nat)
    (days_back : Int) :
    ((VectorDatabase.get_recent_messages vs now chat_id limit days_back).length ≤ limit) ∧
    ((VectorDatabase.get_recent_messages vs now chat_id limit days_back).Pairwise
      (fun a b => a.date ≤ b.date)) ∧
    (limit ≤ ((vChatMsgs vs chat_id).filter
        (inWindow (now - days_back * 86400))).length →
      ∀ m ∈ VectorDatabase.get_recent_messages vs now chat_id limit days_back,
        inWindow (now - days_back * 86400) m = true) ∧
    (((vChatMsgs vs chat_id).filter
        (inWindow (now - days_back * 86400))).length < limit →
      (VectorDatabase.get_recent_messages vs now chat_id limit days_back).length =
        min limit (vChatMsgs vs chat_id).length) ∧
    (((vChatMsgs vs chat_id).filter
        (inWindow (now - days_back * 86400))).length < limit →
      ∀ m ∈ vChatMsgs vs chat_id, inWindow (now - days_back * 86400) m = true →
        m ∈ VectorDatabase.get_recent_messages vs now chat_id limit days_back) ∧
    ((MessageDatabase.get_recent_messages ms chat_id limit).length ≤ limit) ∧
    ((MessageDatabase.get_recent_messages ms chat_id limit).Pairwise
      (fun a b => a.date ≤ b.date)) ∧
    ((MessageDatabase.get_recent_messages ms chat_id limit).length =
      min limit (mChatMsgs ms chat_id).length) ∧
    (limit ≤ ((mChatMsgs ms chat_id).filter
        (inWindow (now - days_back * 86400))).length →
      ∀ m ∈ MessageDatabase.get_recent_messages ms chat_id limit,
        inWindow (now - days_back * 86400) m = true) ∧
    (((mChatMsgs ms chat_id).filter
        (inWindow (now - days_back * 86400))).length ≤ limit →
      ∀ m ∈ mChatMsgs ms chat_id, inWindow (now - days_back * 86400) m = true →
        m ∈ MessageDatabase.get_recent_messages ms chat_id limit) := by
  have hup := inWindow_upward (now - days_back * 86400)
  have hvcount : (vChatMsgs vs chat_id).countP
      (inWindow (now - days_back * 86400)) =
      ((vChatMsgs vs chat_id).filter (inWindow (now - days_back * 86400))).length :=
    List.countP_eq_length_filter _ _
  have hmcount : (mChatMsgs ms chat_id).countP
      (inWindow (now - days_back * 86400)) =
      ((mChatMsgs ms chat_id).filter (inWindow (now - days_back * 86400))).length :=
    List.countP_eq_length_filter _ _
  refine ⟨?_, ?_, ?_, ?_, ?_, ?_, ?_, ?_, ?_, ?_⟩
  · rw [vector_recent_structure]
    split
    · rw [topAsc_length]
      exact Nat.min_le_left _ _
    · rw [topAsc_length]
      exact Nat.min_le_left _ _
  · rw [vector_recent_structure]
    split
    · exact reverse_take_sortDesc_ascending _ _ _
    · exact reverse_take_sortDesc_ascending _ _ _
  · intro h m hm
    rw [vector_recent_structure] at hm
    rw [if_neg (by omega)] at hm
    have := topAsc_mem _ _ _ _ hm
    exact (List.mem_filter.mp this).2
  · intro h
    rw [vector_recent_structure, if_pos h, topAsc_length]
  · intro h m hmA hmW
    rw [vector_recent_structure, if_pos h]
    exact topAsc_covers _ _ hup _ limit (by omega) m hmA hmW
  · rw [mongo_recent_structure, topAsc_length]
    exact Nat.min_le_left _ _
  · rw [mongo_recent_structure]
    exact reverse_take_sortDesc_ascending _ _ _
  · rw [mongo_recent_structure, topAsc_length]
  · intro h m hm
    rw [mongo_recent_structure] at hm
    exact topAsc_all_pred _ _ hup _ limit (by omega) m hm
  · intro h m hmA hmW
    rw [mongo_recent_structure]
    exact topAsc_covers _ _ hup _ limit (by omega) m hmA hmW

/-- C4 witness: the concrete stores around `now = 1000000` with a 7-day
window (threshold 395200): with `limit = 1` the single window message is
returned; with `limit = 2` the result is backfilled to 2 messages and
still contains the window message.  Checked for both stores. -/
theorem C4_recent_windowed_backfill_witness :
    (∀ m ∈ VectorDatabase.get_recent_messages recentVStore 1000000 5 1 7,
        inWindow (1000000 - 7 * 86400) m = true) ∧
    ((VectorDatabase.get_recent_messages recentVStore 1000000 5 2 7).length =
      min 2 (vChatMsgs recentVStore 5).length) ∧
    ((⟨3, "new one", "c", 950000, 5, none⟩ : TelegramMessage) ∈
      VectorDatabase.get_recent_messages recentVStore 1000000 5 2 7) ∧
    (∀ m ∈ MessageDatabase.get_recent_messages recentMStore 5 1,
        inWindow (1000000 - 7 * 86400) m = true) ∧
    ((⟨3, "new one", "c", 950000, 5, none⟩ : TelegramMessage) ∈
      MessageDatabase.get_recent_messages recentMStore 5 2) := by
  refine ⟨?_, ?_, ?_, ?_, ?_⟩
  · exact (C4_recent_windowed_backfill recentVStore recentMStore 1000000 5 1
      7).2.2.1 (by decide)
  · exact (C4_recent_windowed_backfill recentVStore recentMStore 1000000 5 2
      7).2.2.2.1 (by decide)
  · exact (C4_recent_windowed_backfill recentVStore recentMStore 1000000 5 2
      7).2.2.2.2.1 (by decide) ⟨3, "new one", "c", 950000, 5, none⟩
      (by decide) (by decide)
  · exact (C4_recent_windowed_backfill recentVStore recentMStore 1000000 5 1
      7).2.2.2.2.2.2.2.2.1 (by decide)
  · exact (C4_recent_windowed_backfill recentVStore recentMStore 1000000 5 2
      7).2.2.2.2.2.2.2.2.2 (by decide) ⟨3, "new one", "c", 950000, 5, none⟩
      (by decide) (by decide)

end TgBot
